import Mathlib

/-!
Verification of the RAG chatbot's tool-orchestration core.

The reasoning orchestrator is embedded from `backend/ai_generator.py`
(`AIGenerator.generate_response` and `AIGenerator._handle_tool_execution`).
The retrieval-tool layer (`CourseSearchTool`, `ToolManager`, `SearchResults`)
is modelled from the specification, since `search_tools.py` and
`vector_store.py` are not part of the provided sources (only their tests are).

The external reasoning service is modelled as a function from the call index
to the returned response (matching the scripted `side_effect` style of the
repository's own tests); the embedding returns, besides the answer, the full
trace of outbound service calls and dispatcher executions, so that the
protocol claims (call counts, message ordering, tool-execution order) are
statable as equations on the trace.

Python attribute accesses that can raise (`response.content[0].text` on a
response whose first segment is a tool-use block, which has no `text`
attribute) are embedded as `Option`-valued reads; `none` models the raised
exception.
-/

namespace RagChatbot

/-- Keyword arguments of a tool invocation, as an association list.
Values are kept abstract as strings; the orchestrator passes them through
unchanged, so their type never matters to it. -/
abbrev ToolInput := List (String × String)

/-- A content segment of a reasoning-service response: either a plain text
segment or a tool-invocation request `(name, input, id)`.
Embeds the `TextBlock` / `ToolUseBlock` content types of
`backend/ai_generator.py`'s response handling. -/
inductive ContentBlock where
  | text (s : String)
  | toolUse (name : String) (input : ToolInput) (id : String)
  deriving Repr, DecidableEq

/-- A reasoning-service response: stop reason plus ordered content segments
(`response.stop_reason`, `response.content`). -/
structure MessagesResponse where
  stop_reason : String
  content : List ContentBlock
  deriving Repr, DecidableEq

/-- A tool-result entry sent back to the service
(`{"type": "tool_result", "tool_use_id": ..., "content": ...}`,
ai_generator.py lines 123-127). -/
structure ToolResult where
  tool_use_id : String
  content : String
  deriving Repr, DecidableEq

/-- Role tag of a message turn. -/
inductive Role where
  | user
  | assistant
  deriving Repr, DecidableEq

/-- Payload of one message turn: the initial plain-text user query, an
assistant turn carrying raw response content, or a user turn bundling
tool results. -/
inductive MessageContent where
  | text (s : String)
  | blocks (bs : List ContentBlock)
  | toolResults (rs : List ToolResult)
  deriving Repr, DecidableEq

/-- One turn of the message history. -/
structure MessageParam where
  role : Role
  content : MessageContent
  deriving Repr, DecidableEq

/-- A machine-readable tool definition, as passed to the service
(name, description; the schema is irrelevant to the orchestrator, which
passes definitions through opaquely). -/
structure ToolDef where
  name : String
  description : String
  deriving Repr, DecidableEq

/-- The keyword arguments of one `client.messages.create(**api_params)`
call (ai_generator.py lines 74-83 and 133-139). `tools = none` models an
absent `"tools"` key (or an explicit `None` value, which the Python dict
`get` conflates with absence). -/
structure ApiParams where
  model : String
  temperature : Int
  max_tokens : Nat
  messages : List MessageParam
  system : String
  tools : Option (List ToolDef)
  tool_choice_auto : Bool
  deriving Repr, DecidableEq

namespace AIGenerator

/-- The static system prompt (`AIGenerator.SYSTEM_PROMPT`,
ai_generator.py lines 8-36). Its exact text is irrelevant to every claim;
only its identity as the fixed instruction header matters. -/
def SYSTEM_PROMPT : String :=
  " You are an AI assistant specialized in course materials and educational content with access to tools for course information.\n\nAvailable Tools:\n- **search_course_content**: Search within course content for specific topics or information\n- **get_course_outline**: Get course structure including title, link, and complete lesson list\n\nTool Usage Guidelines:\n- Use **get_course_outline** for: course structure, lesson lists, course overview, \"what lessons are in...\", \"outline of...\"\n- Use **search_course_content** for: specific topics, detailed content, particular concepts within courses\n- **Sequential tool calls**: You may use up to 2 tool calls for complex queries:\n  - First get a course outline to identify lesson topics\n  - Then search for related content based on what you learned\n- Synthesize results into accurate, fact-based responses\n- If no results found, state this clearly\n\nResponse Protocol:\n- **General knowledge questions**: Answer using existing knowledge without tools\n- **Course-specific questions**: Use appropriate tool first, then answer\n- **Multi-step questions**: Break down into sequential tool calls when needed\n- **No meta-commentary**: Provide direct answers only\n- Do not mention \"based on the search results\" or \"according to the tool\"\n- **For course outlines**: Always include the course title, course link, and all lesson numbers with titles\n\nAll responses must be:\n1. **Brief and concise** - Get to the point quickly\n2. **Educational** - Maintain instructional value\n3. **Clear** - Use accessible language\n4. **Example-supported** - Include relevant examples when helpful\n"

/-- Round budget of the tool-execution loop
(`MAX_TOOL_ROUNDS = 2`, ai_generator.py line 107). -/
def MAX_TOOL_ROUNDS : Nat := 2

/-- Fallback answer when the round budget is exhausted and the latest
response has no text segment (ai_generator.py line 151). -/
def noAnswerFallback : String := "Unable to generate response after tool execution."

/-- Python truthiness of the optional `conversation_history` string:
`None` and the empty string are both falsy (`if conversation_history`,
ai_generator.py line 69). -/
def historyTruthy : Option String → Bool
  | none => false
  | some h => !(h = "")

/-- System content construction (ai_generator.py lines 67-71): the static
prompt, with a "Previous conversation" section appended only when the
history argument is truthy. -/
def buildSystemContent (conversation_history : Option String) : String :=
  match conversation_history with
  | some h =>
      if h = "" then SYSTEM_PROMPT
      else SYSTEM_PROMPT ++ "\n\nPrevious conversation:\n" ++ h
  | none => SYSTEM_PROMPT

/-- Python truthiness of the optional tools list: `None` and the empty
list are both falsy (`if tools:`, ai_generator.py line 81). -/
def toolsTruthy : Option (List ToolDef) → Bool
  | none => false
  | some l => !(l = [])

/-- Reading `block.text`: total on text segments, failing (no `text`
attribute) on tool-use blocks. `none` models the `AttributeError`. -/
def blockTextAttr : ContentBlock → Option String
  | .text s => some s
  | .toolUse _ _ _ => none

/-- Reading `response.content[0].text` (ai_generator.py lines 93 and 145):
fails when the content list is empty (`IndexError`) or when the first
segment is a tool-use block (`AttributeError`). -/
def firstBlockText : List ContentBlock → Option String
  | [] => none
  | b :: _ => blockTextAttr b

/-- The scan `for block in ...: if hasattr(block, 'text'): return block.text`
(ai_generator.py lines 148-150): first segment carrying a text attribute. -/
def firstTextAttr : List ContentBlock → Option String
  | [] => none
  | b :: rest =>
      match blockTextAttr b with
      | some s => some s
      | none => firstTextAttr rest

/-- The tool-invocation requests of a response's content, in order of
appearance: `(name, input, id)` for each block with `type == "tool_use"`. -/
def toolUseReqs : List ContentBlock → List (String × ToolInput × String)
  | [] => []
  | .text _ :: rest => toolUseReqs rest
  | .toolUse n inp id :: rest => (n, inp, id) :: toolUseReqs rest

/-- The dispatcher executions a response's content gives rise to, in order:
one `(name, input)` per tool-use block (ai_generator.py lines 117-122). -/
def toolExecList (blocks : List ContentBlock) : List (String × ToolInput) :=
  (toolUseReqs blocks).map (fun r => (r.1, r.2.1))

/-- The tool-result collection loop (ai_generator.py lines 116-127):
executes each tool-use block via the dispatcher `tm`, in order, producing
one tool-result entry per request with the request id preserved. -/
def collectToolResults (tm : String → ToolInput → String) :
    List ContentBlock → List ToolResult
  | [] => []
  | .text _ :: rest => collectToolResults tm rest
  | .toolUse n inp id :: rest =>
      { tool_use_id := id, content := tm n inp } :: collectToolResults tm rest

/-- Message extension of one loop iteration (ai_generator.py lines 113
and 129-130): append the assistant's raw content, then — only when there
is at least one tool result — a single user turn bundling all results. -/
def roundMessages (tm : String → ToolInput → String) (cur : MessagesResponse)
    (messages : List MessageParam) : List MessageParam :=
  let msgs1 := messages ++ [{ role := .assistant, content := .blocks cur.content }]
  let results := collectToolResults tm cur.content
  if results = [] then msgs1
  else msgs1 ++ [{ role := .user, content := .toolResults results }]

/-- The follow-up API parameters (ai_generator.py lines 133-139): base
parameters, the accumulated messages, the original system content, the
original tools entry, and an "auto" tool choice. -/
def followupParams (model : String) (messages : List MessageParam)
    (system : String) (tools : Option (List ToolDef)) : ApiParams :=
  { model := model, temperature := 0, max_tokens := 800,
    messages := messages, system := system,
    tools := tools, tool_choice_auto := true }

/-- Trace and outcome of a whole `generate_response` run: the outbound
service calls in order, the dispatcher executions in order, and the answer
(`none` models an uncaught exception on `content[0].text`). -/
structure GenResult where
  calls : List ApiParams
  execs : List (String × ToolInput)
  answer : Option String

/-- The `for _ in range(MAX_TOOL_ROUNDS)` loop of
`AIGenerator._handle_tool_execution` (ai_generator.py lines 111-151),
written with the remaining round budget as fuel. Each `fuel+1` case is one
iteration: extend the messages, execute the round's tools, issue the next
service call (the response at index `i` of the scripted client), and either
return its first segment's text (stop reason not tool-use) or continue.
The `0` case is the post-loop fallback: scan the latest response for a text
segment, else the fixed fallback string — executing no further tools. -/
def toolLoop (client : Nat → MessagesResponse) (tm : String → ToolInput → String)
    (model system : String) (tools : Option (List ToolDef)) :
    Nat → MessagesResponse → List MessageParam → Nat → GenResult
  | 0, cur, _msgs, _i =>
      { calls := [], execs := [],
        answer := some ((firstTextAttr cur.content).getD noAnswerFallback) }
  | fuel+1, cur, msgs, i =>
      let msgs2 := roundMessages tm cur msgs
      let params := followupParams model msgs2 system tools
      let next := client i
      if next.stop_reason = "tool_use" then
        let rest := toolLoop client tm model system tools fuel next msgs2 (i+1)
        { calls := params :: rest.calls,
          execs := toolExecList cur.content ++ rest.execs,
          answer := rest.answer }
      else
        { calls := [params], execs := toolExecList cur.content,
          answer := firstBlockText next.content }

/-- `AIGenerator._handle_tool_execution` (ai_generator.py lines 95-151):
run the tool loop for `MAX_TOOL_ROUNDS` rounds starting from the initial
tool-use response, with the base parameters' messages copied as the
starting history; follow-up service calls consume script indices 1, 2, …. -/
def handle_tool_execution (client : Nat → MessagesResponse)
    (tm : String → ToolInput → String) (model system : String)
    (tools : Option (List ToolDef)) (initial : MessagesResponse)
    (baseMessages : List MessageParam) : GenResult :=
  toolLoop client tm model system tools MAX_TOOL_ROUNDS initial baseMessages 1

/-- `AIGenerator.generate_response` (ai_generator.py lines 49-93).
The reasoning service is the scripted `client` (call index ↦ response);
the initial call consumes index 0. The result carries the full call and
execution trace. When the initial stop reason is `"tool_use"` and a
dispatcher was supplied, control passes to `handle_tool_execution`;
otherwise the first content segment's `text` is read unguarded. -/
def generate_response (client : Nat → MessagesResponse) (model query : String)
    (conversation_history : Option String) (tools : Option (List ToolDef))
    (tool_manager : Option (String → ToolInput → String)) : GenResult :=
  let system_content := buildSystemContent conversation_history
  let toolsParam : Option (List ToolDef) :=
    if toolsTruthy tools then tools else none
  let initMessages : List MessageParam := [{ role := .user, content := .text query }]
  let initParams : ApiParams :=
    { model := model, temperature := 0, max_tokens := 800,
      messages := initMessages, system := system_content,
      tools := toolsParam, tool_choice_auto := toolsTruthy tools }
  let response := client 0
  match tool_manager with
  | some tm =>
      if response.stop_reason = "tool_use" then
        let out := handle_tool_execution client tm model system_content
          toolsParam response initMessages
        { calls := initParams :: out.calls, execs := out.execs,
          answer := out.answer }
      else
        { calls := [initParams], execs := [],
          answer := firstBlockText response.content }
  | none =>
      { calls := [initParams], execs := [],
        answer := firstBlockText response.content }

end AIGenerator

/-! ### Retrieval layer (modelled from the spec)

`vector_store.py` and `search_tools.py` are not among the provided source
files; only their unit tests are. The definitions below are modelled from
the specification (§3, §4.1, §4.2), which the provided tests pin down to
the same behavior. -/

/-- An apostrophe character, used inside rendered messages. -/
def apos : String := String.singleton (Char.ofNat 39)

/-- Metadata of one search-result chunk: course title and optional lesson
number (the two keys the retrieval tool reads). -/
structure ChunkMetadata where
  course_title : String
  lesson_number : Option Int
  deriving Repr, DecidableEq

/-- Modelled from the spec: the SearchResult set (§3) — ordered sequences
of document text, metadata, and relevance distance, plus an optional error
string (`SearchResults` of the missing `vector_store.py`). Distances are
abstracted to rationals; no operation computes with them. -/
structure SearchResults where
  documents : List String
  metadata : List ChunkMetadata
  distances : List Rat
  error : Option String
  deriving Repr, DecidableEq

/-- Modelled from the spec: the `SearchResults.empty` factory
(an error-bearing instance with all three sequences empty; pinned by
`test_search_results.py`, TestSearchResultsEmpty). -/
def SearchResults.empty (error_msg : String) : SearchResults :=
  { documents := [], metadata := [], distances := [], error := some error_msg }

/-- Modelled from the spec: `SearchResults.is_empty` — true exactly when
the documents sequence is empty, regardless of the error field (§3;
pinned by TestSearchResultsIsEmpty). -/
def SearchResults.is_empty (r : SearchResults) : Bool :=
  r.documents.isEmpty

/-- Raw ChromaDB query payload: nested singleton lists per query
(as built by `build_chroma_results` in tests/helpers.py). -/
structure ChromaResults where
  documents : List (List String)
  metadatas : List (List ChunkMetadata)
  distances : List (List Rat)
  deriving Repr, DecidableEq

/-- Modelled from the spec: the `SearchResults.from_chroma` factory of the
missing `vector_store.py` — takes the first nested list of each field when
present, else the empty list (pinned by TestSearchResultsFromChroma). -/
def SearchResults.from_chroma (c : ChromaResults) : SearchResults :=
  { documents := (c.documents.head?).getD [],
    metadata := (c.metadatas.head?).getD [],
    distances := (c.distances.head?).getD [],
    error := none }

/-- The equal-length / error-implies-empty invariant of a SearchResult set
(spec §3). -/
def SearchResults.wellFormed (r : SearchResults) : Prop :=
  r.documents.length = r.metadata.length ∧
  r.metadata.length = r.distances.length ∧
  (∀ e, r.error = some e →
    r.documents = [] ∧ r.metadata = [] ∧ r.distances = [])

/-- A consistency condition on the raw store payload: the extracted
sequences agree in length (the store collaborator returns aligned
parallel arrays). -/
def ChromaResults.aligned (c : ChromaResults) : Prop :=
  ((c.documents.head?).getD []).length = ((c.metadatas.head?).getD []).length ∧
  ((c.metadatas.head?).getD []).length = ((c.distances.head?).getD []).length

/-- The store collaborator's consumed capability set (spec §6): search and
lesson-link resolution. External; passed to the tool as functions. -/
structure VectorStore where
  search : String → Option String → Option Int → SearchResults
  get_lesson_link : String → Int → Option String

/-- A citation source: title, optional lesson, optional url (spec §3). -/
structure Source where
  title : String
  lesson : Option Int
  url : Option String
  deriving Repr, DecidableEq

/-- Modelled from the spec: the content-search tool's state — the store
collaborator and the citation sources of its most recent execution
(`CourseSearchTool` of the missing `search_tools.py`). -/
structure CourseSearchTool where
  store : VectorStore
  last_sources : List Source

/-- The result header for one chunk: `[<course_title>]`, with a
`- Lesson <n>` clause only when the lesson number is present (spec §4.1). -/
def formatHeader (m : ChunkMetadata) : String :=
  match m.lesson_number with
  | some n => "[" ++ m.course_title ++ " - Lesson " ++ toString n ++ "]"
  | none => "[" ++ m.course_title ++ "]"

/-- The citation source built for one result entry: lesson link resolved
via the store only when a lesson number is present (spec §4.1). -/
def mkSource (store : VectorStore) (m : ChunkMetadata) : Source :=
  match m.lesson_number with
  | some n =>
      { title := m.course_title, lesson := some n,
        url := store.get_lesson_link m.course_title n }
  | none => { title := m.course_title, lesson := none, url := none }

/-- Modelled from the spec: the per-result source-building loop of the
content-search tool (§4.1). Walks the (document, metadata) pairs in order,
producing the rebuilt source list and the trace of `get_lesson_link`
invocations (the link lookup is skipped when the lesson number is absent). -/
def buildSources (store : VectorStore) :
    List (String × ChunkMetadata) → List Source × List (String × Int)
  | [] => ([], [])
  | (_, m) :: rest =>
      let out := buildSources store rest
      match m.lesson_number with
      | some n =>
          (mkSource store m :: out.1, (m.course_title, n) :: out.2)
      | none => (mkSource store m :: out.1, out.2)

/-- The "no relevant content" message with the applied filters appended
(spec §4.1; pinned by TestCourseSearchToolExecuteEmpty). -/
def emptyMessage (course_name : Option String) (lesson_number : Option Int) : String :=
  let filters :=
    (match course_name with
     | some c => " in course " ++ apos ++ c ++ apos
     | none => "") ++
    (match lesson_number with
     | some n => " in lesson " ++ toString n
     | none => "")
  "No relevant content found" ++ filters ++ "."

/-- Outcome of one `CourseSearchTool.execute` call: returned text, the
tool's post-state, and the trace of link-resolution calls made. -/
structure ExecOut where
  text : String
  tool : CourseSearchTool
  linkCalls : List (String × Int)

/-- Modelled from the spec: `CourseSearchTool.execute` (§4.1). Delegates
to the store's search unmodified; on an error-bearing result returns the
error verbatim, sources untouched; on an empty error-free result returns
the filter-enumerating message, sources untouched; otherwise formats one
headed block per result joined by blank lines and rebuilds the stored
sources from scratch, one per result, in result order. -/
def CourseSearchTool.execute (tool : CourseSearchTool) (query : String)
    (course_name : Option String) (lesson_number : Option Int) : ExecOut :=
  let results := tool.store.search query course_name lesson_number
  match results.error with
  | some err => { text := err, tool := tool, linkCalls := [] }
  | none =>
      if results.is_empty then
        { text := emptyMessage course_name lesson_number, tool := tool,
          linkCalls := [] }
      else
        let pairs := results.documents.zip results.metadata
        let built := buildSources tool.store pairs
        { text := String.intercalate "\n\n"
            (pairs.map (fun p => formatHeader p.2 ++ "\n" ++ p.1)),
          tool := { store := tool.store, last_sources := built.1 },
          linkCalls := built.2 }

/-- A registered tool as the Dispatcher sees it: its execution function
(the Dispatcher treats tools opaquely once registered). -/
structure RegisteredTool where
  run : ToolInput → String

/-- Modelled from the spec: the Tool Registry/Dispatcher (§4.2,
`ToolManager` of the missing `search_tools.py`) — tools keyed by name in
registration order. -/
structure ToolManager where
  tools : List (String × RegisteredTool)

/-- Modelled from the spec: `ToolManager.execute_tool` (§4.2) — exact-name
lookup; when absent, a descriptive "tool not found" text naming the
requested tool (pinned by
`test_execute_tool_returns_not_found_for_unknown`); otherwise forwards
the kwargs to the tool. -/
def ToolManager.execute_tool (m : ToolManager) (name : String)
    (kwargs : ToolInput) : String :=
  match m.tools.lookup name with
  | some t => t.run kwargs
  | none => "Tool " ++ apos ++ name ++ apos ++ " not found"

/-! ### Sample data

Concrete responses, clients, stores and dispatchers used to instantiate the
universally quantified theorems (mirroring the repository's test fixtures). -/

/-- A plain-text response (as built by `build_claude_text_response`). -/
def sampleTextResponse : MessagesResponse :=
  { stop_reason := "end_turn", content := [.text "Here is the answer."] }

/-- A tool-use response requesting one content search. -/
def sampleToolResponse : MessagesResponse :=
  { stop_reason := "tool_use",
    content := [.toolUse "search_course_content" [("query", "neural networks")] "tool_1"] }

/-- A tool-use response requesting one outline lookup. -/
def sampleToolResponse2 : MessagesResponse :=
  { stop_reason := "tool_use",
    content := [.toolUse "get_course_outline" [("course_name", "ML Course")] "tool_2"] }

/-- A mixed response: narrative text plus a tool request, stop reason
tool-use (as built by `build_claude_mixed_response`). -/
def sampleMixedResponse : MessagesResponse :=
  { stop_reason := "tool_use",
    content := [.text "Partial answer",
                .toolUse "search_course_content" [("query", "C")] "tool_3"] }

/-- A scripted client that always answers with plain text. -/
def clientText : Nat → MessagesResponse := fun _ => sampleTextResponse

/-- A scripted client: one tool round, then a text answer. -/
def clientToolThenText : Nat → MessagesResponse :=
  fun i => if i = 0 then sampleToolResponse else sampleTextResponse

/-- A scripted client that requests tools on every call (the third and
later responses mix text with the request). -/
def clientAllTools : Nat → MessagesResponse :=
  fun i =>
    if i = 0 then sampleToolResponse
    else if i = 1 then sampleToolResponse2
    else sampleMixedResponse

/-- A concrete dispatcher echoing the dispatched tool name. -/
def sampleDispatcher : String → ToolInput → String :=
  fun n _ => "Executed " ++ n

/-- An empty dispatcher registry. -/
def emptyToolManager : ToolManager := { tools := [] }

/-- Aligned store payload instantiating the `from_chroma` part of the
SearchResult invariant. -/
def sampleChroma : ChromaResults :=
  { documents := [["doc1", "doc2"]],
    metadatas := [[{ course_title := "ML", lesson_number := some 1 },
                   { course_title := "ML", lesson_number := none }]],
    distances := [[(3 : Rat)/10, 1/2]] }

/-- Store fixture: one result with lesson number 1 and a resolvable link. -/
def sampleStore : VectorStore :=
  { search := fun _ _ _ =>
      { documents := ["Content here."],
        metadata := [{ course_title := "Test Course", lesson_number := some 1 }],
        distances := [1/2], error := none },
    get_lesson_link := fun _ n => some ("https://example.com/lesson/" ++ toString n) }

/-- Content-search tool over `sampleStore`, with stale prior sources to
show the rebuild replaces them. -/
def sampleSearchTool : CourseSearchTool :=
  { store := sampleStore,
    last_sources := [{ title := "Stale", lesson := none, url := none }] }

/-- Store fixture: one result whose metadata has no lesson number. -/
def sampleStoreNoLesson : VectorStore :=
  { search := fun _ _ _ =>
      { documents := ["Doc 1"],
        metadata := [{ course_title := "Course A", lesson_number := none }],
        distances := [1/2], error := none },
    get_lesson_link := fun _ _ => some "https://example.com/x" }

/-- Content-search tool over `sampleStoreNoLesson`. -/
def sampleSearchToolNoLesson : CourseSearchTool :=
  { store := sampleStoreNoLesson, last_sources := [] }

/-! ### Helper lemmas -/

/-- Mapping a function of the second components over a zip of equal-length
lists is mapping it over the second list. -/
theorem zip_map_snd {α β γ : Type} (f : β → γ) (l1 : List α) :
    ∀ l2 : List β, l1.length = l2.length →
    (l1.zip l2).map (fun p => f p.2) = l2.map f := by
  induction l1 with
  | nil =>
      intro l2 h
      cases l2 with
      | nil => rfl
      | cons b bs => simp at h
  | cons a as ih =>
      intro l2 h
      cases l2 with
      | nil => simp at h
      | cons b bs =>
          simp only [List.zip_cons_cons, List.map_cons]
          exact congrArg (f b :: ·) (ih bs (by simpa using h))

/-- Filtering-and-mapping the second components over a zip of equal-length
lists is filtering-and-mapping over the second list. -/
theorem zip_filterMap_snd {α β γ : Type} (g : β → Option γ) (l1 : List α) :
    ∀ l2 : List β, l1.length = l2.length →
    (l1.zip l2).filterMap (fun p => g p.2) = l2.filterMap g := by
  induction l1 with
  | nil =>
      intro l2 h
      cases l2 with
      | nil => rfl
      | cons b bs => simp at h
  | cons a as ih =>
      intro l2 h
      cases l2 with
      | nil => simp at h
      | cons b bs =>
          simp only [List.zip_cons_cons, List.filterMap_cons]
          cases g b <;> simp [ih bs (by simpa using h)]

/-- The collected tool results are exactly one entry per tool-use request,
in order, with the request id preserved and the dispatcher's output as
content. -/
theorem collectToolResults_eq_map (tm : String → ToolInput → String) :
    ∀ bs : List ContentBlock,
    AIGenerator.collectToolResults tm bs =
      (AIGenerator.toolUseReqs bs).map
        (fun r => { tool_use_id := r.2.2, content := tm r.1 r.2.1 }) := by
  intro bs
  induction bs with
  | nil => rfl
  | cons b rest ih =>
      cases b with
      | text s => simpa [AIGenerator.collectToolResults, AIGenerator.toolUseReqs] using ih
      | toolUse n inp d =>
          simpa [AIGenerator.collectToolResults, AIGenerator.toolUseReqs] using ih

/-- The first component of `buildSources` is one `mkSource` per pair, in
order. -/
theorem buildSources_fst (store : VectorStore) :
    ∀ pairs : List (String × ChunkMetadata),
    (buildSources store pairs).1 = pairs.map (fun p => mkSource store p.2) := by
  intro pairs
  induction pairs with
  | nil => rfl
  | cons p rest ih =>
      cases hm : p.2.lesson_number <;>
        simp [buildSources, ih, hm]

/-- The second component of `buildSources` (the link-resolution trace) is
exactly the lesson-bearing entries, in order. -/
theorem buildSources_snd (store : VectorStore) :
    ∀ pairs : List (String × ChunkMetadata),
    (buildSources store pairs).2 =
      pairs.filterMap
        (fun p => p.2.lesson_number.map (fun n => (p.2.course_title, n))) := by
  intro pairs
  induction pairs with
  | nil => rfl
  | cons p rest ih =>
      cases hm : p.2.lesson_number <;>
        simp [buildSources, ih, hm]

/-- Unfolding of the tool loop at exhausted fuel (the post-loop fallback
of ai_generator.py lines 147-151). -/
theorem toolLoop_zero_eq (client : Nat → MessagesResponse)
    (tm : String → ToolInput → String) (model system : String)
    (tools : Option (List ToolDef)) (cur : MessagesResponse)
    (msgs : List MessageParam) (i : Nat) :
    AIGenerator.toolLoop client tm model system tools 0 cur msgs i =
      { calls := [], execs := [],
        answer := some ((AIGenerator.firstTextAttr cur.content).getD
          AIGenerator.noAnswerFallback) } := rfl

/-- Unfolding of one iteration of the tool loop
(ai_generator.py lines 111-145). -/
theorem toolLoop_succ_eq (client : Nat → MessagesResponse)
    (tm : String → ToolInput → String) (model system : String)
    (tools : Option (List ToolDef)) (fuel : Nat) (cur : MessagesResponse)
    (msgs : List MessageParam) (i : Nat) :
    AIGenerator.toolLoop client tm model system tools (fuel+1) cur msgs i =
      if (client i).stop_reason = "tool_use" then
        { calls := AIGenerator.followupParams model
              (AIGenerator.roundMessages tm cur msgs) system tools ::
            (AIGenerator.toolLoop client tm model system tools fuel (client i)
              (AIGenerator.roundMessages tm cur msgs) (i+1)).calls,
          execs := AIGenerator.toolExecList cur.content ++
            (AIGenerator.toolLoop client tm model system tools fuel (client i)
              (AIGenerator.roundMessages tm cur msgs) (i+1)).execs,
          answer := (AIGenerator.toolLoop client tm model system tools fuel (client i)
              (AIGenerator.roundMessages tm cur msgs) (i+1)).answer }
      else
        { calls := [AIGenerator.followupParams model
            (AIGenerator.roundMessages tm cur msgs) system tools],
          execs := AIGenerator.toolExecList cur.content,
          answer := AIGenerator.firstBlockText (client i).content } := rfl

/-- A one-round-budget loop always issues exactly one service call. -/
theorem toolLoop_one_len (client : Nat → MessagesResponse)
    (tm : String → ToolInput → String) (model system : String)
    (tools : Option (List ToolDef)) (cur : MessagesResponse)
    (msgs : List MessageParam) (i : Nat) :
    (AIGenerator.toolLoop client tm model system tools 1 cur msgs i).calls.length = 1 := by
  have e := toolLoop_succ_eq client tm model system tools 0 cur msgs i
  rw [Nat.zero_add] at e
  rw [e]
  split
  · simp [toolLoop_zero_eq]
  · simp

/-- With the full round budget, the loop issues exactly one call when the
first follow-up response is not tool-use. -/
theorem toolLoop_MAX_len_one (client : Nat → MessagesResponse)
    (tm : String → ToolInput → String) (model system : String)
    (tools : Option (List ToolDef)) (cur : MessagesResponse)
    (msgs : List MessageParam) (i : Nat)
    (h : ¬ (client i).stop_reason = "tool_use") :
    (AIGenerator.toolLoop client tm model system tools
      AIGenerator.MAX_TOOL_ROUNDS cur msgs i).calls.length = 1 := by
  have h2 : AIGenerator.MAX_TOOL_ROUNDS = 1 + 1 := rfl
  rw [h2, toolLoop_succ_eq]
  simp [h]

/-- With the full round budget, the loop issues exactly two calls when the
first follow-up response is tool-use (whatever the second is). -/
theorem toolLoop_MAX_len_two (client : Nat → MessagesResponse)
    (tm : String → ToolInput → String) (model system : String)
    (tools : Option (List ToolDef)) (cur : MessagesResponse)
    (msgs : List MessageParam) (i : Nat)
    (h : (client i).stop_reason = "tool_use") :
    (AIGenerator.toolLoop client tm model system tools
      AIGenerator.MAX_TOOL_ROUNDS cur msgs i).calls.length = 2 := by
  have h2 : AIGenerator.MAX_TOOL_ROUNDS = 1 + 1 := rfl
  rw [h2, toolLoop_succ_eq]
  simp [h, toolLoop_one_len]

/-- Both rounds request tools: the loop's full trace at budget exhaustion —
two calls, tool executions of the first two responses only, and the
fallback text scan over the third response. -/
theorem toolLoop_MAX_full (client : Nat → MessagesResponse)
    (tm : String → ToolInput → String) (model system : String)
    (tools : Option (List ToolDef)) (cur : MessagesResponse)
    (msgs : List MessageParam) (i : Nat)
    (ha : (client i).stop_reason = "tool_use")
    (hb : (client (i+1)).stop_reason = "tool_use") :
    (AIGenerator.toolLoop client tm model system tools
      AIGenerator.MAX_TOOL_ROUNDS cur msgs i).answer =
        some ((AIGenerator.firstTextAttr (client (i+1)).content).getD
          AIGenerator.noAnswerFallback) ∧
    (AIGenerator.toolLoop client tm model system tools
      AIGenerator.MAX_TOOL_ROUNDS cur msgs i).execs =
        AIGenerator.toolExecList cur.content ++
          AIGenerator.toolExecList (client i).content := by
  have h2 : AIGenerator.MAX_TOOL_ROUNDS = 1 + 1 := rfl
  rw [h2, toolLoop_succ_eq]
  have e := toolLoop_succ_eq client tm model system tools 0 (client i)
    (AIGenerator.roundMessages tm cur msgs) (i+1)
  rw [Nat.zero_add] at e
  simp [ha, e, hb, toolLoop_zero_eq]

/-- Every service call issued by the tool loop keeps the original tools
entry attached and the "auto" tool choice set. -/
theorem toolLoop_calls_tools (client : Nat → MessagesResponse)
    (tm : String → ToolInput → String) (model system : String)
    (tools : Option (List ToolDef)) :
    ∀ (f : Nat) (cur : MessagesResponse) (msgs : List MessageParam) (i : Nat),
    ∀ p ∈ (AIGenerator.toolLoop client tm model system tools f cur msgs i).calls,
      p.tools = tools ∧ p.tool_choice_auto = true := by
  intro f
  induction f with
  | zero =>
      intro cur msgs i p hp
      rw [toolLoop_zero_eq] at hp
      simp at hp
  | succ g ih =>
      intro cur msgs i p hp
      rw [toolLoop_succ_eq] at hp
      by_cases hc : (client i).stop_reason = "tool_use"
      · rw [if_pos hc] at hp
        simp only [List.mem_cons] at hp
        rcases hp with hp | hp
        · subst hp; exact ⟨rfl, rfl⟩
        · exact ih (client i) _ (i+1) p hp
      · rw [if_neg hc] at hp
        simp only [List.mem_singleton] at hp
        subst hp; exact ⟨rfl, rfl⟩

/-! ### Claims -/

/-- Claim C6: every SearchResult set maintains the invariant that the
documents, metadata, and distances sequences have equal length and that
an error-bearing instance has all three sequences empty (shown for the
factory-produced instances: `empty` always, `from_chroma` on an aligned
store payload), and `is_empty` is true exactly when the documents
sequence is empty, regardless of whether an error is set. -/
theorem searchResults_invariant :
    (∀ msg, (SearchResults.empty msg).wellFormed ∧
      (SearchResults.empty msg).error = some msg) ∧
    (∀ c : ChromaResults, c.aligned →
      (SearchResults.from_chroma c).wellFormed) ∧
    (∀ r : SearchResults, r.is_empty = true ↔ r.documents = []) := by
  refine ⟨fun msg => ⟨⟨rfl, rfl, fun e _ => ⟨rfl, rfl, rfl⟩⟩, rfl⟩,
    fun c hc => ⟨hc.1, hc.2, fun e he => by simp [SearchResults.from_chroma] at he⟩,
    fun r => ?_⟩
  simp [SearchResults.is_empty, List.isEmpty_iff]

/-- Witness for C6 at a concrete aligned payload. -/
theorem searchResults_invariant_witness :
    sampleChroma.aligned ∧
    (SearchResults.from_chroma sampleChroma).wellFormed ∧
    ((SearchResults.empty "No results found").is_empty = true ↔
      (SearchResults.empty "No results found").documents = []) :=
  ⟨⟨rfl, rfl⟩, searchResults_invariant.2.1 sampleChroma ⟨rfl, rfl⟩,
    searchResults_invariant.2.2 (SearchResults.empty "No results found")⟩

/-- Claim C7: for every tool name not present in the Dispatcher's registry
and any keyword arguments, `execute_tool` never raises (it is total and
returns ordinary text); the returned text is the descriptive "tool not
found" message and contains the requested name as a substring. -/
theorem execute_tool_not_found (m : ToolManager) (name : String)
    (kwargs : ToolInput) (h : m.tools.lookup name = none) :
    m.execute_tool name kwargs =
      "Tool " ++ apos ++ name ++ apos ++ " not found" ∧
    ∃ p s, m.execute_tool name kwargs = p ++ name ++ s := by
  have hmain : m.execute_tool name kwargs =
      "Tool " ++ apos ++ name ++ apos ++ " not found" := by
    simp [ToolManager.execute_tool, h]
  refine ⟨hmain, "Tool " ++ apos, apos ++ " not found", ?_⟩
  rw [hmain]
  simp [String.append_assoc]

/-- Witness for C7 at an empty registry and the name from the test suite. -/
theorem execute_tool_not_found_witness :
    emptyToolManager.tools.lookup "nonexistent_tool" = none ∧
    (emptyToolManager.execute_tool "nonexistent_tool" [] =
      "Tool " ++ apos ++ "nonexistent_tool" ++ apos ++ " not found" ∧
    ∃ p s, emptyToolManager.execute_tool "nonexistent_tool" [] =
      p ++ "nonexistent_tool" ++ s) :=
  ⟨rfl, execute_tool_not_found emptyToolManager "nonexistent_tool" [] rfl⟩

/-- Claim C10: calling `generate_response` with an empty-string history
produces exactly the same run (in particular the same outbound system
content) as calling it with no history at all: the bare instruction header
with no "Previous conversation" section — the condition is Python
truthiness of the string, not its non-nullness. -/
theorem empty_history_same_as_none (client : Nat → MessagesResponse)
    (model query : String) (tools : Option (List ToolDef))
    (tm : Option (String → ToolInput → String)) :
    AIGenerator.generate_response client model query (some "") tools tm =
      AIGenerator.generate_response client model query none tools tm ∧
    AIGenerator.buildSystemContent (some "") = AIGenerator.SYSTEM_PROMPT ∧
    AIGenerator.buildSystemContent none = AIGenerator.SYSTEM_PROMPT := by
  refine ⟨?_, rfl, rfl⟩
  rfl

/-- Claim C4: when the initial response's stop reason is tool-use but no
dispatcher was supplied, `generate_response` issues no further service
calls (exactly one in total), executes no tools, and answers with the
first content segment's text of that same response. -/
theorem no_dispatcher_falls_back (client : Nat → MessagesResponse)
    (model query : String) (ch : Option String) (tools : Option (List ToolDef))
    (_h : (client 0).stop_reason = "tool_use") :
    (AIGenerator.generate_response client model query ch tools none).calls.length = 1 ∧
    (AIGenerator.generate_response client model query ch tools none).execs = [] ∧
    (AIGenerator.generate_response client model query ch tools none).answer =
      AIGenerator.firstBlockText (client 0).content := by
  refine ⟨rfl, rfl, rfl⟩

/-- Witness for C4: a tool-use initial response with no dispatcher. -/
theorem no_dispatcher_falls_back_witness :
    (clientAllTools 0).stop_reason = "tool_use" ∧
    ((AIGenerator.generate_response clientAllTools "m" "q" none none none).calls.length = 1 ∧
     (AIGenerator.generate_response clientAllTools "m" "q" none none none).execs = [] ∧
     (AIGenerator.generate_response clientAllTools "m" "q" none none none).answer =
       AIGenerator.firstBlockText (clientAllTools 0).content) :=
  ⟨rfl, no_dispatcher_falls_back clientAllTools "m" "q" none none rfl⟩

/-- Claim C9: on the no-tool-execution return paths (stop reason not
tool-use, or tool-use without a dispatcher), `generate_response` reads
`content[0].text` unguarded: the extraction succeeds exactly when the
first content segment is a text segment, and for a response whose first
segment is a tool-invocation request (which carries no text attribute)
the access fails — modelled as a `none` answer — instead of producing an
answer. -/
theorem unguarded_first_segment_text (client : Nat → MessagesResponse)
    (model query : String) (ch : Option String) (tools : Option (List ToolDef)) :
    (∀ tm, (client 0).stop_reason ≠ "tool_use" →
      ∀ s rest, (client 0).content = ContentBlock.text s :: rest →
      (AIGenerator.generate_response client model query ch tools tm).answer = some s) ∧
    (∀ s rest, (client 0).content = ContentBlock.text s :: rest →
      (AIGenerator.generate_response client model query ch tools none).answer = some s) ∧
    (∀ n inp d rest, (client 0).content = ContentBlock.toolUse n inp d :: rest →
      (AIGenerator.generate_response client model query ch tools none).answer = none) := by
  refine ⟨?_, ?_, ?_⟩
  · intro tm hstop s rest hc
    cases tm with
    | none =>
        simp [AIGenerator.generate_response, AIGenerator.firstBlockText, hc,
          AIGenerator.blockTextAttr]
    | some f =>
        simp [AIGenerator.generate_response, AIGenerator.firstBlockText, hstop, hc,
          AIGenerator.blockTextAttr]
  · intro s rest hc
    simp [AIGenerator.generate_response, AIGenerator.firstBlockText, hc,
      AIGenerator.blockTextAttr]
  · intro n inp d rest hc
    simp [AIGenerator.generate_response, AIGenerator.firstBlockText, hc,
      AIGenerator.blockTextAttr]

/-- Witness for C9: text-first response succeeds; tool-use-first response
without a dispatcher fails. -/
theorem unguarded_first_segment_text_witness :
    ((clientText 0).stop_reason ≠ "tool_use" ∧
      (clientText 0).content = ContentBlock.text "Here is the answer." ::
        ([] : List ContentBlock) ∧
      (AIGenerator.generate_response clientText "m" "q" none none none).answer =
        some "Here is the answer.") ∧
    ((clientAllTools 0).content =
        ContentBlock.toolUse "search_course_content"
          [("query", "neural networks")] "tool_1" :: ([] : List ContentBlock) ∧
      (AIGenerator.generate_response clientAllTools "m" "q" none none none).answer =
        none) :=
  ⟨⟨by decide, rfl,
    (unguarded_first_segment_text clientText "m" "q" none none).2.1
      "Here is the answer." [] rfl⟩,
   ⟨rfl,
    (unguarded_first_segment_text clientAllTools "m" "q" none none).2.2
      "search_course_content" [("query", "neural networks")] "tool_1" [] rfl⟩⟩

/-- Claim C1: `generate_response` issues exactly 1 service call when the
initial response's stop reason is not tool-use (dispatcher or not);
exactly 2 when the initial response requests tool use, a dispatcher is
supplied, and the second response does not request tool use; and exactly
3 when tool use is requested in both the initial and the second response
(the maximum round count). -/
theorem service_call_counts (client : Nat → MessagesResponse)
    (model query : String) (ch : Option String) (tools : Option (List ToolDef))
    (tm : String → ToolInput → String)
    (tmOpt : Option (String → ToolInput → String)) :
    (¬ (client 0).stop_reason = "tool_use" →
      (AIGenerator.generate_response client model query ch tools tmOpt).calls.length = 1) ∧
    ((client 0).stop_reason = "tool_use" →
      ¬ (client 1).stop_reason = "tool_use" →
      (AIGenerator.generate_response client model query ch tools (some tm)).calls.length = 2) ∧
    ((client 0).stop_reason = "tool_use" →
      (client 1).stop_reason = "tool_use" →
      (AIGenerator.generate_response client model query ch tools (some tm)).calls.length = 3) := by
  refine ⟨?_, ?_, ?_⟩
  · intro h0
    cases tmOpt with
    | none => rfl
    | some f => simp [AIGenerator.generate_response, h0]
  · intro h0 h1
    have e := toolLoop_MAX_len_one client tm model (AIGenerator.buildSystemContent ch)
      (if AIGenerator.toolsTruthy tools then tools else none) (client 0)
      [{ role := Role.user, content := MessageContent.text query }] 1 h1
    simp [AIGenerator.generate_response, AIGenerator.handle_tool_execution, h0, e]
  · intro h0 h1
    have e := toolLoop_MAX_len_two client tm model (AIGenerator.buildSystemContent ch)
      (if AIGenerator.toolsTruthy tools then tools else none) (client 0)
      [{ role := Role.user, content := MessageContent.text query }] 1 h1
    simp [AIGenerator.generate_response, AIGenerator.handle_tool_execution, h0, e]

/-- Witness for C1: the three call counts at concrete scripted clients. -/
theorem service_call_counts_witness :
    (¬ (clientText 0).stop_reason = "tool_use" ∧
      (AIGenerator.generate_response clientText "m" "q" none none none).calls.length = 1) ∧
    ((clientToolThenText 0).stop_reason = "tool_use" ∧
      ¬ (clientToolThenText 1).stop_reason = "tool_use" ∧
      (AIGenerator.generate_response clientToolThenText "m" "q" none none
        (some sampleDispatcher)).calls.length = 2) ∧
    ((clientAllTools 0).stop_reason = "tool_use" ∧
      (clientAllTools 1).stop_reason = "tool_use" ∧
      (AIGenerator.generate_response clientAllTools "m" "q" none none
        (some sampleDispatcher)).calls.length = 3) :=
  ⟨⟨by decide,
    (service_call_counts clientText "m" "q" none none sampleDispatcher none).1 (by decide)⟩,
   ⟨rfl, by decide,
    (service_call_counts clientToolThenText "m" "q" none none sampleDispatcher
      (some sampleDispatcher)).2.1 rfl (by decide)⟩,
   ⟨rfl, rfl,
    (service_call_counts clientAllTools "m" "q" none none sampleDispatcher
      (some sampleDispatcher)).2.2 rfl rfl⟩⟩

/-- Claim C2: after the maximum of 2 tool rounds, if the latest response
still requests tool use, `generate_response` executes no further tools
(the execution trace covers only the first two responses) and answers with
the text of the latest response's first text-carrying segment, or with the
fixed fallback string when no segment carries text; 3 service calls in
total. -/
theorem round_budget_exhaustion (client : Nat → MessagesResponse)
    (model query : String) (ch : Option String) (tools : Option (List ToolDef))
    (tm : String → ToolInput → String)
    (h0 : (client 0).stop_reason = "tool_use")
    (h1 : (client 1).stop_reason = "tool_use")
    (h2 : (client 2).stop_reason = "tool_use") :
    (AIGenerator.generate_response client model query ch tools (some tm)).answer =
      some ((AIGenerator.firstTextAttr (client 2).content).getD
        AIGenerator.noAnswerFallback) ∧
    (AIGenerator.generate_response client model query ch tools (some tm)).execs =
      AIGenerator.toolExecList (client 0).content ++
        AIGenerator.toolExecList (client 1).content ∧
    (AIGenerator.generate_response client model query ch tools (some tm)).calls.length = 3 := by
  have e := toolLoop_MAX_full client tm model (AIGenerator.buildSystemContent ch)
    (if AIGenerator.toolsTruthy tools then tools else none) (client 0)
    [{ role := Role.user, content := MessageContent.text query }] 1 h1
    (show (client (1+1)).stop_reason = "tool_use" from h2)
  have elen := toolLoop_MAX_len_two client tm model (AIGenerator.buildSystemContent ch)
    (if AIGenerator.toolsTruthy tools then tools else none) (client 0)
    [{ role := Role.user, content := MessageContent.text query }] 1 h1
  refine ⟨?_, ?_, ?_⟩
  · simp [AIGenerator.generate_response, AIGenerator.handle_tool_execution, h0, e.1]
  · simp [AIGenerator.generate_response, AIGenerator.handle_tool_execution, h0, e.2]
  · simp [AIGenerator.generate_response, AIGenerator.handle_tool_execution, h0, elen]

/-- Witness for C2: all three scripted responses request tools; the mixed
third response yields its narrative text as the answer. -/
theorem round_budget_exhaustion_witness :
    (clientAllTools 0).stop_reason = "tool_use" ∧
    (clientAllTools 1).stop_reason = "tool_use" ∧
    (clientAllTools 2).stop_reason = "tool_use" ∧
    ((AIGenerator.generate_response clientAllTools "m" "q" none none
        (some sampleDispatcher)).answer =
      some ((AIGenerator.firstTextAttr (clientAllTools 2).content).getD
        AIGenerator.noAnswerFallback) ∧
     (AIGenerator.generate_response clientAllTools "m" "q" none none
        (some sampleDispatcher)).execs =
      AIGenerator.toolExecList (clientAllTools 0).content ++
        AIGenerator.toolExecList (clientAllTools 1).content ∧
     (AIGenerator.generate_response clientAllTools "m" "q" none none
        (some sampleDispatcher)).calls.length = 3) :=
  ⟨rfl, rfl, rfl,
   round_budget_exhaustion clientAllTools "m" "q" none none sampleDispatcher rfl rfl rfl⟩

/-- Claim C3: in every tool round, the loop appends the assistant's raw
response content to the history, executes every tool-invocation request of
that response via the dispatcher in the order the requests appear,
collects exactly one tool-result entry per request with the request id
preserved as `tool_use_id`, appends all of those entries bundled into a
single user turn, and issues the next service call — whose head parameters
carry those messages — with the same tool definitions still attached (and
every later call of the loop likewise). -/
theorem tool_round_protocol (client : Nat → MessagesResponse)
    (tm : String → ToolInput → String) (model system : String)
    (tools : Option (List ToolDef)) (cur : MessagesResponse)
    (msgs : List MessageParam) (f i : Nat)
    (h : AIGenerator.toolUseReqs cur.content ≠ []) :
    AIGenerator.roundMessages tm cur msgs =
      msgs ++ [{ role := Role.assistant, content := MessageContent.blocks cur.content },
               { role := Role.user, content := (MessageContent.toolResults
                 (AIGenerator.collectToolResults tm cur.content)) }] ∧
    AIGenerator.collectToolResults tm cur.content =
      (AIGenerator.toolUseReqs cur.content).map
        (fun r => { tool_use_id := r.2.2, content := tm r.1 r.2.1 }) ∧
    AIGenerator.toolExecList cur.content =
      (AIGenerator.toolUseReqs cur.content).map (fun r => (r.1, r.2.1)) ∧
    (AIGenerator.toolLoop client tm model system tools (f+1) cur msgs i).calls.head? =
      some (AIGenerator.followupParams model (AIGenerator.roundMessages tm cur msgs)
        system tools) ∧
    (∃ restExecs,
      (AIGenerator.toolLoop client tm model system tools (f+1) cur msgs i).execs =
        AIGenerator.toolExecList cur.content ++ restExecs) ∧
    (∀ p ∈ (AIGenerator.toolLoop client tm model system tools (f+1) cur msgs i).calls,
      p.tools = tools ∧ p.tool_choice_auto = true) := by
  have hmap := collectToolResults_eq_map tm cur.content
  have hne : AIGenerator.collectToolResults tm cur.content ≠ [] := by
    rw [hmap]
    simpa using h
  refine ⟨?_, hmap, rfl, ?_, ?_, toolLoop_calls_tools client tm model system tools (f+1) cur msgs i⟩
  · simp [AIGenerator.roundMessages, hne]
  · rw [toolLoop_succ_eq]
    split <;> rfl
  · rw [toolLoop_succ_eq]
    split
    · exact ⟨_, rfl⟩
    · exact ⟨[], by simp⟩

/-- Witness for C3 at a one-request tool-use response. -/
theorem tool_round_protocol_witness :
    AIGenerator.toolUseReqs sampleToolResponse.content ≠ [] ∧
    (AIGenerator.roundMessages sampleDispatcher sampleToolResponse [] =
      [] ++ [{ role := Role.assistant,
               content := MessageContent.blocks sampleToolResponse.content },
             { role := Role.user, content := (MessageContent.toolResults
               (AIGenerator.collectToolResults sampleDispatcher sampleToolResponse.content)) }] ∧
    AIGenerator.collectToolResults sampleDispatcher sampleToolResponse.content =
      (AIGenerator.toolUseReqs sampleToolResponse.content).map
        (fun r => { tool_use_id := r.2.2, content := sampleDispatcher r.1 r.2.1 }) ∧
    AIGenerator.toolExecList sampleToolResponse.content =
      (AIGenerator.toolUseReqs sampleToolResponse.content).map (fun r => (r.1, r.2.1)) ∧
    (AIGenerator.toolLoop clientText sampleDispatcher "m" "s" none (0+1)
      sampleToolResponse [] 5).calls.head? =
      some (AIGenerator.followupParams "m"
        (AIGenerator.roundMessages sampleDispatcher sampleToolResponse []) "s" none) ∧
    (∃ restExecs,
      (AIGenerator.toolLoop clientText sampleDispatcher "m" "s" none (0+1)
        sampleToolResponse [] 5).execs =
        AIGenerator.toolExecList sampleToolResponse.content ++ restExecs) ∧
    (∀ p ∈ (AIGenerator.toolLoop clientText sampleDispatcher "m" "s" none (0+1)
        sampleToolResponse [] 5).calls,
      p.tools = none ∧ p.tool_choice_auto = true)) :=
  ⟨by decide,
   tool_round_protocol clientText sampleDispatcher "m" "s" none
     sampleToolResponse [] 0 5 (by decide)⟩

/-- Claim C5: for every non-empty, error-free SearchResult set (with the
aligned-lengths invariant), the content-search tool's `execute` rebuilds
its stored citation source list from scratch — independently of whatever
`last_sources` held before — so that the list is exactly one `mkSource`
(title, lesson, url) per result in result order, and its length equals the
number of results. -/
theorem execute_rebuilds_sources (tool : CourseSearchTool) (query : String)
    (cn : Option String) (ln : Option Int)
    (hne : (tool.store.search query cn ln).error = none)
    (hdoc : (tool.store.search query cn ln).documents ≠ [])
    (hlen : (tool.store.search query cn ln).documents.length =
      (tool.store.search query cn ln).metadata.length) :
    (tool.execute query cn ln).tool.last_sources =
      (tool.store.search query cn ln).metadata.map (mkSource tool.store) ∧
    (tool.execute query cn ln).tool.last_sources.length =
      (tool.store.search query cn ln).documents.length := by
  have hie : (tool.store.search query cn ln).is_empty = false := by
    simp [SearchResults.is_empty, hdoc]
  have hfst : (tool.execute query cn ln).tool.last_sources =
      (tool.store.search query cn ln).metadata.map (mkSource tool.store) := by
    simp only [CourseSearchTool.execute, hne, hie]
    simp only [Bool.false_eq_true, if_false]
    rw [buildSources_fst]
    exact zip_map_snd (mkSource tool.store) _ _ hlen
  refine ⟨hfst, ?_⟩
  rw [hfst, List.length_map, hlen]

/-- Witness for C5 at the concrete store fixture. -/
theorem execute_rebuilds_sources_witness :
    (sampleSearchTool.store.search "test" none none).error = none ∧
    (sampleSearchTool.store.search "test" none none).documents ≠ [] ∧
    (sampleSearchTool.store.search "test" none none).documents.length =
      (sampleSearchTool.store.search "test" none none).metadata.length ∧
    ((sampleSearchTool.execute "test" none none).tool.last_sources =
      (sampleSearchTool.store.search "test" none none).metadata.map
        (mkSource sampleSearchTool.store) ∧
    (sampleSearchTool.execute "test" none none).tool.last_sources.length =
      (sampleSearchTool.store.search "test" none none).documents.length) :=
  ⟨rfl, by simp [sampleSearchTool, sampleStore], rfl,
   execute_rebuilds_sources sampleSearchTool "test" none none rfl
     (by simp [sampleSearchTool, sampleStore]) rfl⟩

/-- Claim C8: the content-search tool's `execute` invokes the store's
`get_lesson_link` exactly for the result entries whose metadata carries a
lesson number, in order; in particular, for every entry whose lesson
number is absent it never invokes the link resolution, and when no entry
carries one it makes no link call at all. -/
theorem execute_skips_absent_lesson (tool : CourseSearchTool) (query : String)
    (cn : Option String) (ln : Option Int)
    (hne : (tool.store.search query cn ln).error = none)
    (hlen : (tool.store.search query cn ln).documents.length =
      (tool.store.search query cn ln).metadata.length) :
    (tool.execute query cn ln).linkCalls =
      (tool.store.search query cn ln).metadata.filterMap
        (fun m => m.lesson_number.map (fun n => (m.course_title, n))) ∧
    ((∀ m ∈ (tool.store.search query cn ln).metadata, m.lesson_number = none) →
      (tool.execute query cn ln).linkCalls = []) := by
  have hfst : (tool.execute query cn ln).linkCalls =
      (tool.store.search query cn ln).metadata.filterMap
        (fun m => m.lesson_number.map (fun n => (m.course_title, n))) := by
    by_cases hdoc : (tool.store.search query cn ln).documents = []
    · have hmeta : (tool.store.search query cn ln).metadata = [] := by
        have := hlen
        rw [hdoc] at this
        exact (List.length_eq_zero.mp this.symm)
      have hie : (tool.store.search query cn ln).is_empty = true := by
        simp [SearchResults.is_empty, hdoc]
      simp [CourseSearchTool.execute, hne, hie, hmeta]
    · have hie : (tool.store.search query cn ln).is_empty = false := by
        simp [SearchResults.is_empty, hdoc]
      simp only [CourseSearchTool.execute, hne, hie]
      simp only [Bool.false_eq_true, if_false]
      rw [buildSources_snd]
      exact zip_filterMap_snd
        (fun m => m.lesson_number.map (fun n => (m.course_title, n))) _ _ hlen
  refine ⟨hfst, fun hall => ?_⟩
  rw [hfst]
  exact List.filterMap_eq_nil_iff.mpr (fun m hm => by rw [hall m hm]; rfl)

/-- Witness for C8: a lesson-free result set produces no link calls. -/
theorem execute_skips_absent_lesson_witness :
    (sampleSearchToolNoLesson.store.search "test" none none).error = none ∧
    (sampleSearchToolNoLesson.store.search "test" none none).documents.length =
      (sampleSearchToolNoLesson.store.search "test" none none).metadata.length ∧
    (∀ m ∈ (sampleSearchToolNoLesson.store.search "test" none none).metadata,
      m.lesson_number = none) ∧
    (sampleSearchToolNoLesson.execute "test" none none).linkCalls = [] :=
  ⟨rfl, rfl, by decide,
   (execute_skips_absent_lesson sampleSearchToolNoLesson "test" none none rfl rfl).2
     (by decide)⟩

end RagChatbot
